import Mathlib

/-!
Shallow embedding of the order-execution engine (src/API.md, the embedded
TypeScript source file).  JavaScript numbers are modelled as rationals,
Date values as natural-number timestamps supplied by the environment, and
the Math.random draws as explicit rational parameters in the interval
from 0 inclusive to 1 exclusive.  Fallible operations are modelled with
Except / Option; an awaited promise that can reject is given an explicit
fault-injection point in the worker environment, matching the queue and
worker contract under which the handler runs.
-/

/-- The six order statuses of the OrderStatus union type. -/
inductive OrderStatus
  | pending
  | routing
  | building
  | submitted
  | confirmed
  | failed
deriving DecidableEq, Repr

/-- The Order record.  Optional txHash and error model the optional fields;
createdAt and updatedAt are timestamps. -/
structure Order where
  id : String
  tokenIn : String
  tokenOut : String
  amount : Rat
  status : OrderStatus
  txHash : Option String
  error : Option String
  createdAt : Nat
  updatedAt : Nat
deriving DecidableEq, Repr

/-- A validated order request, the body of POST /api/orders/execute. -/
structure OrderRequest where
  tokenIn : String
  tokenOut : String
  amount : Rat
deriving DecidableEq, Repr

/-- A status event pushed over the notification channel: the JSON object
with fields status, orderId, and optional txHash, executedPrice, error.
A field that is absent from the JSON object is modelled as none. -/
structure StatusEvent where
  status : OrderStatus
  orderId : String
  txHash : Option String
  executedPrice : Option Rat
  error : Option String
deriving DecidableEq, Repr

/-- Base price of the mock DEX router. -/
def basePrice : Rat := 100

/-- The price formula shared by both quote functions and by executeSwap:
basePrice * (1 + (r * 0.06 - 0.03)) where r is the Math.random draw. -/
def simPrice (r : Rat) : Rat := basePrice * (1 + (r * (6/100) - 3/100))

/-- MockDexRouter.getRaydiumQuote with its Math.random draw made explicit. -/
def getRaydiumQuote (r : Rat) (tokenIn tokenOut : String) (amount : Rat) : Rat :=
  simPrice r

/-- MockDexRouter.getMeteoraQuote with its Math.random draw made explicit. -/
def getMeteoraQuote (r : Rat) (tokenIn tokenOut : String) (amount : Rat) : Rat :=
  simPrice r

/-- MockDexRouter.executeSwap with the randomUUID value and the Math.random
draw for the executed price made explicit.  Returns (txHash, executedPrice). -/
def executeSwap (uuid : String) (r : Rat) (dex : String) (order : Order) :
    String × Rat :=
  (dex ++ "_" ++ uuid, simPrice r)

/-- The venue choice of the worker: raydiumPrice <= meteoraPrice selects
raydium, otherwise meteora. -/
def chooseBestDex (raydiumPrice meteoraPrice : Rat) : String :=
  if raydiumPrice ≤ meteoraPrice then "raydium" else "meteora"

/-- The in-memory order store, a Map from order id to Order.  Map.set is
modelled by consing: the most recent binding for a key wins on lookup. -/
def storePut (s : List (String × Order)) (k : String) (v : Order) :
    List (String × Order) :=
  (k, v) :: s

/-- Map.get on the order store. -/
def storeGet (s : List (String × Order)) (k : String) : Option Order :=
  List.lookup k s

/-- The WebSocket connection registry, a Map from order id to socket.
Socket handles are abstract and modelled by naturals. -/
def connPut (c : List (String × Nat)) (k : String) (v : Nat) :
    List (String × Nat) :=
  (k, v) :: c

/-- Map.get on the connection registry. -/
def connGet (c : List (String × Nat)) (k : String) : Option Nat :=
  List.lookup k c

/-- Environment of one worker-handler invocation.  It fixes the random
draws rA, rB, rE behind the two quote calls and executeSwap, the
randomUUID value used by executeSwap, the successive Date.now values
(now k is the k-th constructor call), whether a connection is bound for
the order id, the outcome of each connection.send attempt (sendFault k
is the fault thrown by the k-th attempt, none meaning success), and
fault-injection points for the three awaited router promises: the mock
router itself never rejects, but the worker contract must support an
ExecutionFault at any awaited step, so a some value makes that await
reject with the given message. -/
structure WorkerEnv where
  rA : Rat
  rB : Rat
  rE : Rat
  uuid : String
  now : Nat → Nat
  connected : Bool
  sendFault : Nat → Option String
  quoteAFault : Option String
  quoteBFault : Option String
  execFault : Option String

/-- Intermediate state threaded through one worker-handler run: the
in-flight order object, the sequence of orderStore.set writes so far
(as value snapshots), the events handed to the notification push so far,
the subsequence of those actually delivered, and the counts of send
attempts and Date.now calls made. -/
structure WSt where
  order : Order
  writes : List Order
  notes : List StatusEvent
  delivered : List StatusEvent
  sendIdx : Nat
  clockIdx : Nat

/-- One run of the worker handler, observationally: the final value of the
order object, the store writes, the offered and delivered events, and the
handler outcome — ok for a normal return, error m when the handler threw
m to the queue. -/
structure WorkerOut where
  order : Order
  writes : List Order
  notes : List StatusEvent
  delivered : List StatusEvent
  outcome : Except String Unit
deriving Repr

/-- The updateStatus closure of the worker handler: set order.status,
set order.updatedAt to the current time, write the order to the store,
and if a connection is bound, send the event consisting of status,
orderId and the given additional fields.  Returns the new state and,
when the send threw, the thrown fault. -/
def updateStatus (env : WorkerEnv) (s : WSt) (st : OrderStatus)
    (tx : Option String) (px : Option Rat) (err : Option String) :
    WSt × Option String :=
  let o := { s.order with status := st, updatedAt := env.now s.clockIdx }
  let ev : StatusEvent := ⟨st, o.id, tx, px, err⟩
  let s1 : WSt :=
    { order := o
      writes := s.writes ++ [o]
      notes := s.notes ++ [ev]
      delivered := s.delivered
      sendIdx := s.sendIdx
      clockIdx := s.clockIdx + 1 }
  if env.connected then
    match env.sendFault s1.sendIdx with
    | none =>
        ({ s1 with delivered := s1.delivered ++ [ev], sendIdx := s1.sendIdx + 1 },
         none)
    | some m => ({ s1 with sendIdx := s1.sendIdx + 1 }, some m)
  else
    (s1, none)

/-- The catch block of the worker handler, entered with the fault msg: set
status to failed, set error to the fault message, bump updatedAt, write
the order to the store, send a failed event when a connection is bound,
and rethrow.  When that send itself throws, the send fault escapes the
catch block before the rethrow, so it replaces the original fault. -/
def catchBlock (env : WorkerEnv) (s : WSt) (msg : String) : WorkerOut :=
  let o := { s.order with
             status := OrderStatus.failed
             error := some msg
             updatedAt := env.now s.clockIdx }
  let ev : StatusEvent := ⟨OrderStatus.failed, o.id, none, none, some msg⟩
  let writes := s.writes ++ [o]
  let notes := s.notes ++ [ev]
  if env.connected then
    match env.sendFault s.sendIdx with
    | none =>
        ⟨o, writes, notes, s.delivered ++ [ev], Except.error msg⟩
    | some g => ⟨o, writes, notes, s.delivered, Except.error g⟩
  else
    ⟨o, writes, notes, s.delivered, Except.error msg⟩

/-- The worker handler body, processing one job whose payload carries
order0.  Mirrors the source: transition to routing, await both quotes,
choose the best DEX, transition to building then submitted, await
executeSwap, set txHash, transition to confirmed, return; any thrown
fault lands in the catch block. -/
def workerHandler (env : WorkerEnv) (order0 : Order) : WorkerOut :=
  let s0 : WSt := ⟨order0, [], [], [], 0, 0⟩
  match updateStatus env s0 OrderStatus.routing none none none with
  | (s1, some m) => catchBlock env s1 m
  | (s1, none) =>
    match env.quoteAFault with
    | some m => catchBlock env s1 m
    | none =>
      match env.quoteBFault with
      | some m => catchBlock env s1 m
      | none =>
        let raydiumPrice :=
          getRaydiumQuote env.rA order0.tokenIn order0.tokenOut order0.amount
        let meteoraPrice :=
          getMeteoraQuote env.rB order0.tokenIn order0.tokenOut order0.amount
        let bestDex := chooseBestDex raydiumPrice meteoraPrice
        match updateStatus env s1 OrderStatus.building none none none with
        | (s2, some m) => catchBlock env s2 m
        | (s2, none) =>
          match updateStatus env s2 OrderStatus.submitted none none none with
          | (s3, some m) => catchBlock env s3 m
          | (s3, none) =>
            match env.execFault with
            | some m => catchBlock env s3 m
            | none =>
              let result := executeSwap env.uuid env.rE bestDex s3.order
              let s3a : WSt :=
                { s3 with order := { s3.order with txHash := some result.1 } }
              match updateStatus env s3a OrderStatus.confirmed
                  (some result.1) (some result.2) none with
              | (s4, some m) => catchBlock env s4 m
              | (s4, none) =>
                ⟨s4.order, s4.writes, s4.notes, s4.delivered, Except.ok ()⟩

/-- Options passed to orderQueue.add in the source. -/
structure EnqueueOpts where
  attempts : Nat
  backoffType : String
  backoffDelay : Nat
deriving DecidableEq, Repr

/-- A job placed on the orders queue: name, payload order, options. -/
structure EnqueuedJob where
  jobType : String
  order : Order
  opts : EnqueueOpts
deriving DecidableEq, Repr

/-- The HTTP reply of the submission handler. -/
structure SubmitReply where
  statusCode : Nat
  orderId : String
  status : OrderStatus
  wsEndpoint : String
deriving DecidableEq, Repr

/-- The order value built by the POST /api/orders/execute handler: the
randomUUID value, the request body fields, status pending, createdAt and
updatedAt both set to the current time. -/
def createOrder (uuid : String) (t : Nat) (req : OrderRequest) : Order :=
  { id := uuid
    tokenIn := req.tokenIn
    tokenOut := req.tokenOut
    amount := req.amount
    status := OrderStatus.pending
    txHash := none
    error := none
    createdAt := t
    updatedAt := t }

/-- The POST /api/orders/execute handler: create the order, store it,
enqueue one execute_order job with attempts 3 and exponential backoff of
base delay 1000, and reply 202 with orderId, pending status and the
WebSocket endpoint for the order. -/
def executeOrderHandler (uuid : String) (t : Nat) (req : OrderRequest)
    (store : List (String × Order)) :
    List (String × Order) × EnqueuedJob × SubmitReply :=
  let order := createOrder uuid t req
  (storePut store order.id order,
   ⟨"execute_order", order, ⟨3, "exponential", 1000⟩⟩,
   ⟨202, order.id, OrderStatus.pending, "ws://localhost:3000/ws/" ++ order.id⟩)

/-- The GET /ws/:orderId handler at connection time: bind the socket in
the registry under the order id, then, if the order exists in the store,
send one snapshot message carrying its status, id, txHash and error.
Returns the new registry and the list of messages sent during connect. -/
def wsConnect (store : List (String × Order)) (conns : List (String × Nat))
    (orderId : String) (socket : Nat) :
    List (String × Nat) × List StatusEvent :=
  let conns1 := connPut conns orderId socket
  match storeGet store orderId with
  | some o => (conns1, [⟨o.status, o.id, o.txHash, none, o.error⟩])
  | none => (conns1, [])

/-- Helper: concatenation with the underscore separator is injective when
the two leading parts have equal length. -/
theorem append_sep_inj (d1 d2 u1 u2 : String) (hl : d1.length = d2.length)
    (h : d1 ++ "_" ++ u1 = d2 ++ "_" ++ u2) : d1 = d2 ∧ u1 = u2 := by
  have hd : (d1 ++ "_" ++ u1).data = (d2 ++ "_" ++ u2).data := by rw [h]
  simp only [String.data_append] at hd
  rw [List.append_assoc, List.append_assoc] at hd
  have hlen : d1.data.length = d2.data.length := hl
  have h2 := List.append_inj hd hlen
  refine ⟨String.ext h2.1, String.ext ?_⟩
  have h3 := h2.2
  simpa using h3

/-- Helper: Map.get after Map.set at the same key yields the new value. -/
theorem storeGet_storePut_same (s : List (String × Order)) (k : String)
    (v : Order) : storeGet (storePut s k v) k = some v := by
  simp [storeGet, storePut, List.lookup]

/-- Helper: Map.get after Map.set at another key is unchanged. -/
theorem storeGet_storePut_other (s : List (String × Order)) (k k2 : String)
    (v : Order) (h : k2 ≠ k) : storeGet (storePut s k v) k2 = storeGet s k2 := by
  simp [storeGet, storePut, List.lookup, beq_eq_false_iff_ne.mpr h]

/-- C2: for every pair of quoted prices, the worker selects raydium (venue
A, queried first) exactly when its quote is less than or equal to the
meteora quote, and meteora exactly when the meteora quote is strictly
lower; equal quotes select raydium through the same comparison, with no
separate tie-break branch. -/
theorem venue_selection_lower_quote_wins (qA qB : Rat) :
    (chooseBestDex qA qB = "raydium" ↔ qA ≤ qB) ∧
    (chooseBestDex qA qB = "meteora" ↔ qB < qA) ∧
    (qA = qB → chooseBestDex qA qB = "raydium") := by
  unfold chooseBestDex
  by_cases h : qA ≤ qB
  · rw [if_pos h]
    exact ⟨⟨fun _ => h, fun _ => rfl⟩,
           ⟨fun he => absurd he (by decide),
            fun hlt => absurd h (not_le.mpr hlt)⟩,
           fun _ => rfl⟩
  · rw [if_neg h]
    exact ⟨⟨fun he => absurd he (by decide), fun hle => absurd hle h⟩,
           ⟨fun _ => not_le.mp h, fun _ => rfl⟩,
           fun he => absurd (le_of_eq he) h⟩

/-- C6: for a Math.random draw r in the interval from 0 inclusive to 1
exclusive, both quote functions and the executed price of executeSwap are
100 * (1 + u) for one and the same u between -0.03 and 0.03; the executed
price is computed from its own draw alone, taking neither the order nor
the chosen venue nor any quoted price as input. -/
theorem quote_band (r : Rat) (h0 : 0 ≤ r) (h1 : r < 1) :
    ∃ u : Rat, -(3/100) ≤ u ∧ u ≤ 3/100 ∧
      (∀ tin tout amt, getRaydiumQuote r tin tout amt = 100 * (1 + u)) ∧
      (∀ tin tout amt, getMeteoraQuote r tin tout amt = 100 * (1 + u)) ∧
      (∀ uuid dex o, (executeSwap uuid r dex o).2 = 100 * (1 + u)) ∧
      97 ≤ 100 * (1 + u) ∧ 100 * (1 + u) ≤ 103 := by
  have hm : 0 ≤ r * (6/100) := mul_nonneg h0 (by norm_num)
  have hm2 : r * (6/100) < 1 * (6/100) :=
    mul_lt_mul_of_pos_right h1 (by norm_num)
  refine ⟨r * (6/100) - 3/100, by linarith, by linarith,
          fun tin tout amt => rfl, fun tin tout amt => rfl,
          fun uuid dex o => rfl, by linarith, by linarith⟩

/-- Witness for quote_band at the concrete draw one half. -/
theorem quote_band_witness :
    ((0 : Rat) ≤ 1/2 ∧ (1/2 : Rat) < 1) ∧
    (∃ u : Rat, -(3/100) ≤ u ∧ u ≤ 3/100 ∧
      (∀ tin tout amt, getRaydiumQuote (1/2) tin tout amt = 100 * (1 + u)) ∧
      (∀ tin tout amt, getMeteoraQuote (1/2) tin tout amt = 100 * (1 + u)) ∧
      (∀ uuid dex o, (executeSwap uuid (1/2) dex o).2 = 100 * (1 + u)) ∧
      97 ≤ 100 * (1 + u) ∧ 100 * (1 + u) ≤ 103) :=
  ⟨⟨by norm_num, by norm_num⟩, quote_band (1/2) (by norm_num) (by norm_num)⟩

/-- C9: executeSwap returns a txHash that is the venue name followed by an
underscore and the fresh randomUUID value, and two calls with distinct
UUID values return distinct txHash values, whichever of the two venues
each call used. -/
theorem txhash_prefix_unique (u1 u2 : String) (r1 r2 : Rat) (d1 d2 : String)
    (o1 o2 : Order)
    (hd1 : d1 = "raydium" ∨ d1 = "meteora")
    (hd2 : d2 = "raydium" ∨ d2 = "meteora")
    (hu : u1 ≠ u2) :
    (executeSwap u1 r1 d1 o1).1 = d1 ++ "_" ++ u1 ∧
    (executeSwap u1 r1 d1 o1).1 ≠ (executeSwap u2 r2 d2 o2).1 := by
  refine ⟨rfl, fun h => ?_⟩
  have hlen : d1.length = d2.length := by
    rcases hd1 with h1 | h1 <;> rcases hd2 with h2 | h2 <;> rw [h1, h2] <;> rfl
  have h4 := append_sep_inj d1 d2 u1 u2 hlen (by simpa [executeSwap] using h)
  exact hu h4.2

/-- Order used by the txhash_prefix_unique witness. -/
def c9Order : Order :=
  ⟨"w9", "SOL", "USDC", 1, OrderStatus.submitted, none, none, 0, 0⟩

/-- Witness for txhash_prefix_unique at concrete venues and UUID values. -/
theorem txhash_prefix_unique_witness :
    (("raydium" = "raydium" ∨ ("raydium" : String) = "meteora") ∧
     (("meteora" : String) = "raydium" ∨ "meteora" = "meteora") ∧
     ("ua" : String) ≠ "ub") ∧
    ((executeSwap "ua" 0 "raydium" c9Order).1 = "raydium" ++ "_" ++ "ua" ∧
     (executeSwap "ua" 0 "raydium" c9Order).1 ≠
       (executeSwap "ub" 0 "meteora" c9Order).1) :=
  ⟨⟨Or.inl rfl, Or.inr rfl, by decide⟩,
   txhash_prefix_unique "ua" "ub" 0 0 "raydium" "meteora" c9Order c9Order
     (Or.inl rfl) (Or.inr rfl) (by decide)⟩

/-- C8: the submission handler, on a validated request and a randomUUID
value not yet present in the store, stores exactly the freshly created
pending order under that id (leaving every other key unchanged), enqueues
one execute order job carrying that order with attempts 3 and exponential
backoff of base delay 1000 ms, and replies 202 with the order id, pending
status, and a wsEndpoint ending in the ws path segment followed by the
order id. -/
theorem submit_handler_spec (uuid : String) (t : Nat) (req : OrderRequest)
    (store : List (String × Order)) (hfresh : storeGet store uuid = none) :
    storeGet (executeOrderHandler uuid t req store).1 uuid =
      some (createOrder uuid t req) ∧
    (createOrder uuid t req).status = OrderStatus.pending ∧
    (createOrder uuid t req).id = uuid ∧
    (createOrder uuid t req).txHash = none ∧
    (createOrder uuid t req).error = none ∧
    (∀ k, k ≠ uuid →
       storeGet (executeOrderHandler uuid t req store).1 k = storeGet store k) ∧
    (executeOrderHandler uuid t req store).2.1 =
      ⟨"execute_order", createOrder uuid t req, ⟨3, "exponential", 1000⟩⟩ ∧
    (executeOrderHandler uuid t req store).2.2.statusCode = 202 ∧
    (executeOrderHandler uuid t req store).2.2.orderId = uuid ∧
    (executeOrderHandler uuid t req store).2.2.status = OrderStatus.pending ∧
    (∃ p, (executeOrderHandler uuid t req store).2.2.wsEndpoint =
       p ++ ("/ws/" ++ uuid)) := by
  refine ⟨storeGet_storePut_same store uuid (createOrder uuid t req),
          rfl, rfl, rfl, rfl,
          fun k hk => storeGet_storePut_other store uuid k
            (createOrder uuid t req) hk,
          rfl, rfl, rfl, rfl, ⟨"ws://localhost:3000", rfl⟩⟩

/-- Witness for submit_handler_spec on a concrete request and empty store. -/
theorem submit_handler_spec_witness :
    storeGet ([] : List (String × Order)) "id8" = none ∧
    (storeGet (executeOrderHandler "id8" 5 ⟨"SOL", "USDC", 3/2⟩ []).1 "id8" =
       some (createOrder "id8" 5 ⟨"SOL", "USDC", 3/2⟩) ∧
     (createOrder "id8" 5 ⟨"SOL", "USDC", 3/2⟩).status = OrderStatus.pending ∧
     (createOrder "id8" 5 ⟨"SOL", "USDC", 3/2⟩).id = "id8" ∧
     (createOrder "id8" 5 ⟨"SOL", "USDC", 3/2⟩).txHash = none ∧
     (createOrder "id8" 5 ⟨"SOL", "USDC", 3/2⟩).error = none ∧
     (∀ k, k ≠ "id8" →
        storeGet (executeOrderHandler "id8" 5 ⟨"SOL", "USDC", 3/2⟩ []).1 k =
          storeGet [] k) ∧
     (executeOrderHandler "id8" 5 ⟨"SOL", "USDC", 3/2⟩ []).2.1 =
       ⟨"execute_order", createOrder "id8" 5 ⟨"SOL", "USDC", 3/2⟩,
        ⟨3, "exponential", 1000⟩⟩ ∧
     (executeOrderHandler "id8" 5 ⟨"SOL", "USDC", 3/2⟩ []).2.2.statusCode = 202 ∧
     (executeOrderHandler "id8" 5 ⟨"SOL", "USDC", 3/2⟩ []).2.2.orderId = "id8" ∧
     (executeOrderHandler "id8" 5 ⟨"SOL", "USDC", 3/2⟩ []).2.2.status =
       OrderStatus.pending ∧
     (∃ p, (executeOrderHandler "id8" 5 ⟨"SOL", "USDC", 3/2⟩ []).2.2.wsEndpoint =
        p ++ ("/ws/" ++ "id8"))) :=
  ⟨rfl, submit_handler_spec "id8" 5 ⟨"SOL", "USDC", 3/2⟩ [] rfl⟩

/-- C7: connecting to the notification endpoint for an order id binds the
socket in the registry under that id, replacing any prior binding; when
the order exists in the store the client receives exactly one snapshot
message with the current status, the order id, and the stored txHash and
error fields; when no such order exists no snapshot is sent.  In
particular a client connecting after a terminal state receives a single
snapshot reflecting that state and no replayed intermediate messages. -/
theorem ws_connect_snapshot (store : List (String × Order))
    (conns : List (String × Nat)) (orderId : String) (socket : Nat) :
    connGet (wsConnect store conns orderId socket).1 orderId = some socket ∧
    (∀ o, storeGet store orderId = some o →
       (wsConnect store conns orderId socket).2 =
         [⟨o.status, o.id, o.txHash, none, o.error⟩]) ∧
    (storeGet store orderId = none →
       (wsConnect store conns orderId socket).2 = []) := by
  refine ⟨?_, fun o h => ?_, fun h => ?_⟩
  · simp [wsConnect, connGet, connPut, List.lookup]
    cases storeGet store orderId <;> simp [List.lookup]
  · simp [wsConnect, h]
  · simp [wsConnect, h]

/-- Store holding one confirmed order, used by the ws connect witnesses. -/
def c7Store : List (String × Order) :=
  [("w7", ⟨"w7", "SOL", "USDC", 1, OrderStatus.confirmed,
           some "raydium_t7", none, 0, 9⟩)]

/-- Witness for ws_connect_snapshot: connecting for a confirmed order on a
registry that already holds a stale binding yields the new binding and a
single terminal snapshot; connecting for an unknown order sends nothing. -/
theorem ws_connect_snapshot_witness :
    (connGet (wsConnect c7Store [("w7", 3)] "w7" 7).1 "w7" = some 7 ∧
     (wsConnect c7Store [("w7", 3)] "w7" 7).2 =
       [⟨OrderStatus.confirmed, "w7", some "raydium_t7", none, none⟩]) ∧
    (wsConnect c7Store [] "nope" 5).2 = [] :=
  ⟨⟨(ws_connect_snapshot c7Store [("w7", 3)] "w7" 7).1,
    (ws_connect_snapshot c7Store [("w7", 3)] "w7" 7).2.1 _ rfl⟩,
   (ws_connect_snapshot c7Store [] "nope" 5).2.2 rfl⟩

/-- C10: every snapshot message sent at connect time has no executedPrice
field, whatever the order status; for a confirmed order the snapshot is
exactly status, orderId, txHash and error, so a client connecting after
confirmation learns the txHash but not the executed price. -/
theorem snapshot_omits_executed_price (store : List (String × Order))
    (conns : List (String × Nat)) (orderId : String) (socket : Nat)
    (o : Order) (h : storeGet store orderId = some o) :
    (∀ ev ∈ (wsConnect store conns orderId socket).2, ev.executedPrice = none) ∧
    (o.status = OrderStatus.confirmed →
       (wsConnect store conns orderId socket).2 =
         [⟨OrderStatus.confirmed, o.id, o.txHash, none, o.error⟩]) := by
  constructor
  · intro ev hev
    simp [wsConnect, h] at hev
    rw [hev]
  · intro hc
    simp [wsConnect, h, hc]

/-- Witness for snapshot_omits_executed_price on the confirmed order of
c7Store: the snapshot carries the txHash and a none executedPrice. -/
theorem snapshot_omits_executed_price_witness :
    storeGet c7Store "w7" =
      some ⟨"w7", "SOL", "USDC", 1, OrderStatus.confirmed,
            some "raydium_t7", none, 0, 9⟩ ∧
    ((∀ ev ∈ (wsConnect c7Store [] "w7" 7).2, ev.executedPrice = none) ∧
     (OrderStatus.confirmed = OrderStatus.confirmed →
        (wsConnect c7Store [] "w7" 7).2 =
          [⟨OrderStatus.confirmed, "w7", some "raydium_t7", none, none⟩])) :=
  ⟨rfl, snapshot_omits_executed_price c7Store [] "w7" 7 _ rfl⟩

def bestDexOf (env : WorkerEnv) (o : Order) : String :=
  chooseBestDex (getRaydiumQuote env.rA o.tokenIn o.tokenOut o.amount)
    (getMeteoraQuote env.rB o.tokenIn o.tokenOut o.amount)

def txOf (env : WorkerEnv) (o : Order) : String :=
  bestDexOf env o ++ "_" ++ env.uuid

def stampOrd (o : Order) (st : OrderStatus) (t : Nat) : Order :=
  { o with status := st, updatedAt := t }

def confOrd (env : WorkerEnv) (o : Order) : Order :=
  { o with
    status := OrderStatus.confirmed
    txHash := some (txOf env o)
    updatedAt := env.now 3 }

def plainEv (st : OrderStatus) (oid : String) : StatusEvent :=
  ⟨st, oid, none, none, none⟩

def confEv (env : WorkerEnv) (o : Order) : StatusEvent :=
  ⟨OrderStatus.confirmed, o.id, some (txOf env o), some (simPrice env.rE), none⟩

theorem updateStatus_conn_ok (env : WorkerEnv) (s : WSt) (st : OrderStatus)
    (tx : Option String) (px : Option Rat) (err : Option String)
    (hc : env.connected = true) (hf : env.sendFault s.sendIdx = none) :
    updateStatus env s st tx px err =
      (⟨{ s.order with status := st, updatedAt := env.now s.clockIdx },
        s.writes ++ [{ s.order with status := st, updatedAt := env.now s.clockIdx }],
        s.notes ++ [⟨st, s.order.id, tx, px, err⟩],
        s.delivered ++ [⟨st, s.order.id, tx, px, err⟩],
        s.sendIdx + 1, s.clockIdx + 1⟩, none) := by
  unfold updateStatus
  simp [hc, hf]

theorem updateStatus_conn_fault (env : WorkerEnv) (s : WSt) (st : OrderStatus)
    (tx : Option String) (px : Option Rat) (err : Option String) (g : String)
    (hc : env.connected = true) (hf : env.sendFault s.sendIdx = some g) :
    updateStatus env s st tx px err =
      (⟨{ s.order with status := st, updatedAt := env.now s.clockIdx },
        s.writes ++ [{ s.order with status := st, updatedAt := env.now s.clockIdx }],
        s.notes ++ [⟨st, s.order.id, tx, px, err⟩],
        s.delivered, s.sendIdx + 1, s.clockIdx + 1⟩, some g) := by
  unfold updateStatus
  simp [hc, hf]

theorem updateStatus_noconn (env : WorkerEnv) (s : WSt) (st : OrderStatus)
    (tx : Option String) (px : Option Rat) (err : Option String)
    (hc : env.connected = false) :
    updateStatus env s st tx px err =
      (⟨{ s.order with status := st, updatedAt := env.now s.clockIdx },
        s.writes ++ [{ s.order with status := st, updatedAt := env.now s.clockIdx }],
        s.notes ++ [⟨st, s.order.id, tx, px, err⟩],
        s.delivered, s.sendIdx, s.clockIdx + 1⟩, none) := by
  unfold updateStatus
  simp [hc]

theorem workerHandler_clean (env : WorkerEnv) (o : Order)
    (hc : env.connected = true)
    (h0 : env.sendFault 0 = none) (h1 : env.sendFault 1 = none)
    (h2 : env.sendFault 2 = none) (h3 : env.sendFault 3 = none)
    (ha : env.quoteAFault = none) (hb : env.quoteBFault = none)
    (he : env.execFault = none) :
    workerHandler env o =
      ⟨confOrd env o,
       [stampOrd o OrderStatus.routing (env.now 0),
        stampOrd o OrderStatus.building (env.now 1),
        stampOrd o OrderStatus.submitted (env.now 2),
        confOrd env o],
       [plainEv OrderStatus.routing o.id,
        plainEv OrderStatus.building o.id,
        plainEv OrderStatus.submitted o.id,
        confEv env o],
       [plainEv OrderStatus.routing o.id,
        plainEv OrderStatus.building o.id,
        plainEv OrderStatus.submitted o.id,
        confEv env o],
       Except.ok ()⟩ := by
  unfold workerHandler
  dsimp only
  rw [updateStatus_conn_ok env _ _ _ _ _ hc h0]
  dsimp only
  rw [ha]
  dsimp only
  rw [hb]
  dsimp only
  rw [updateStatus_conn_ok env _ _ _ _ _ hc h1]
  dsimp only
  rw [updateStatus_conn_ok env _ _ _ _ _ hc h2]
  dsimp only
  rw [he]
  dsimp only
  rw [updateStatus_conn_ok env _ _ _ _ _ hc h3]
  dsimp only
  simp [executeSwap, getRaydiumQuote, getMeteoraQuote, confOrd, stampOrd,
        plainEv, confEv, txOf, bestDexOf]

theorem catchBlock_order (env : WorkerEnv) (s : WSt) (m : String) :
    (catchBlock env s m).order = { s.order with
      status := OrderStatus.failed
      error := some m
      updatedAt := env.now s.clockIdx } := by
  unfold catchBlock
  dsimp only
  split
  · split <;> rfl
  · rfl

theorem catchBlock_writes (env : WorkerEnv) (s : WSt) (m : String) :
    (catchBlock env s m).writes = s.writes ++ [(catchBlock env s m).order] := by
  rw [catchBlock_order]
  unfold catchBlock
  dsimp only
  split
  · split <;> rfl
  · rfl

theorem catchBlock_notes (env : WorkerEnv) (s : WSt) (m : String) :
    (catchBlock env s m).notes =
      s.notes ++ [⟨OrderStatus.failed, s.order.id, none, none, some m⟩] := by
  unfold catchBlock
  dsimp only
  split
  · split <;> rfl
  · rfl

theorem catchBlock_ne_ok (env : WorkerEnv) (s : WSt) (m : String) :
    (catchBlock env s m).outcome ≠ Except.ok () := by
  unfold catchBlock
  dsimp only
  split
  · split <;> exact fun h => Except.noConfusion h
  · exact fun h => Except.noConfusion h

theorem catchBlock_outcome (env : WorkerEnv) (s : WSt) (m : String) :
    (catchBlock env s m).outcome = Except.error m ∨
    (env.connected = true ∧ ∃ g, env.sendFault s.sendIdx = some g ∧
       (catchBlock env s m).outcome = Except.error g) := by
  unfold catchBlock
  dsimp only
  split
  · rename_i hc
    split
    · exact Or.inl rfl
    · rename_i g hg
      exact Or.inr ⟨hc, g, hg, rfl⟩
  · exact Or.inl rfl

theorem workerHandler_sf0 (env : WorkerEnv) (o : Order) (g : String)
    (hc : env.connected = true) (h0 : env.sendFault 0 = some g) :
    workerHandler env o =
      catchBlock env
        ⟨stampOrd o OrderStatus.routing (env.now 0),
         [stampOrd o OrderStatus.routing (env.now 0)],
         [plainEv OrderStatus.routing o.id], [], 1, 1⟩ g := by
  unfold workerHandler
  dsimp only
  rw [updateStatus_conn_fault env _ _ _ _ _ g hc h0]
  dsimp only
  simp [stampOrd, plainEv]

theorem workerHandler_qa (env : WorkerEnv) (o : Order) (m : String)
    (hc : env.connected = true) (h0 : env.sendFault 0 = none)
    (ha : env.quoteAFault = some m) :
    workerHandler env o =
      catchBlock env
        ⟨stampOrd o OrderStatus.routing (env.now 0),
         [stampOrd o OrderStatus.routing (env.now 0)],
         [plainEv OrderStatus.routing o.id],
         [plainEv OrderStatus.routing o.id], 1, 1⟩ m := by
  unfold workerHandler
  dsimp only
  rw [updateStatus_conn_ok env _ _ _ _ _ hc h0]
  dsimp only
  rw [ha]
  dsimp only
  simp [stampOrd, plainEv]

theorem workerHandler_qb (env : WorkerEnv) (o : Order) (m : String)
    (hc : env.connected = true) (h0 : env.sendFault 0 = none)
    (ha : env.quoteAFault = none) (hb : env.quoteBFault = some m) :
    workerHandler env o =
      catchBlock env
        ⟨stampOrd o OrderStatus.routing (env.now 0),
         [stampOrd o OrderStatus.routing (env.now 0)],
         [plainEv OrderStatus.routing o.id],
         [plainEv OrderStatus.routing o.id], 1, 1⟩ m := by
  unfold workerHandler
  dsimp only
  rw [updateStatus_conn_ok env _ _ _ _ _ hc h0]
  dsimp only
  rw [ha]
  dsimp only
  rw [hb]
  dsimp only
  simp [stampOrd, plainEv]

theorem workerHandler_sf1 (env : WorkerEnv) (o : Order) (g : String)
    (hc : env.connected = true) (h0 : env.sendFault 0 = none)
    (ha : env.quoteAFault = none) (hb : env.quoteBFault = none)
    (h1 : env.sendFault 1 = some g) :
    workerHandler env o =
      catchBlock env
        ⟨stampOrd o OrderStatus.building (env.now 1),
         [stampOrd o OrderStatus.routing (env.now 0),
          stampOrd o OrderStatus.building (env.now 1)],
         [plainEv OrderStatus.routing o.id, plainEv OrderStatus.building o.id],
         [plainEv OrderStatus.routing o.id], 2, 2⟩ g := by
  unfold workerHandler
  dsimp only
  rw [updateStatus_conn_ok env _ _ _ _ _ hc h0]
  dsimp only
  rw [ha]
  dsimp only
  rw [hb]
  dsimp only
  rw [updateStatus_conn_fault env _ _ _ _ _ g hc h1]
  dsimp only
  simp [stampOrd, plainEv]

theorem workerHandler_sf2 (env : WorkerEnv) (o : Order) (g : String)
    (hc : env.connected = true) (h0 : env.sendFault 0 = none)
    (ha : env.quoteAFault = none) (hb : env.quoteBFault = none)
    (h1 : env.sendFault 1 = none) (h2 : env.sendFault 2 = some g) :
    workerHandler env o =
      catchBlock env
        ⟨stampOrd o OrderStatus.submitted (env.now 2),
         [stampOrd o OrderStatus.routing (env.now 0),
          stampOrd o OrderStatus.building (env.now 1),
          stampOrd o OrderStatus.submitted (env.now 2)],
         [plainEv OrderStatus.routing o.id, plainEv OrderStatus.building o.id,
          plainEv OrderStatus.submitted o.id],
         [plainEv OrderStatus.routing o.id, plainEv OrderStatus.building o.id],
         3, 3⟩ g := by
  unfold workerHandler
  dsimp only
  rw [updateStatus_conn_ok env _ _ _ _ _ hc h0]
  dsimp only
  rw [ha]
  dsimp only
  rw [hb]
  dsimp only
  rw [updateStatus_conn_ok env _ _ _ _ _ hc h1]
  dsimp only
  rw [updateStatus_conn_fault env _ _ _ _ _ g hc h2]
  dsimp only
  simp [stampOrd, plainEv]

theorem workerHandler_exec (env : WorkerEnv) (o : Order) (m : String)
    (hc : env.connected = true) (h0 : env.sendFault 0 = none)
    (ha : env.quoteAFault = none) (hb : env.quoteBFault = none)
    (h1 : env.sendFault 1 = none) (h2 : env.sendFault 2 = none)
    (he : env.execFault = some m) :
    workerHandler env o =
      catchBlock env
        ⟨stampOrd o OrderStatus.submitted (env.now 2),
         [stampOrd o OrderStatus.routing (env.now 0),
          stampOrd o OrderStatus.building (env.now 1),
          stampOrd o OrderStatus.submitted (env.now 2)],
         [plainEv OrderStatus.routing o.id, plainEv OrderStatus.building o.id,
          plainEv OrderStatus.submitted o.id],
         [plainEv OrderStatus.routing o.id, plainEv OrderStatus.building o.id,
          plainEv OrderStatus.submitted o.id],
         3, 3⟩ m := by
  unfold workerHandler
  dsimp only
  rw [updateStatus_conn_ok env _ _ _ _ _ hc h0]
  dsimp only
  rw [ha]
  dsimp only
  rw [hb]
  dsimp only
  rw [updateStatus_conn_ok env _ _ _ _ _ hc h1]
  dsimp only
  rw [updateStatus_conn_ok env _ _ _ _ _ hc h2]
  dsimp only
  rw [he]
  dsimp only
  simp [stampOrd, plainEv]

theorem workerHandler_sf3 (env : WorkerEnv) (o : Order) (g : String)
    (hc : env.connected = true) (h0 : env.sendFault 0 = none)
    (ha : env.quoteAFault = none) (hb : env.quoteBFault = none)
    (h1 : env.sendFault 1 = none) (h2 : env.sendFault 2 = none)
    (he : env.execFault = none) (h3 : env.sendFault 3 = some g) :
    workerHandler env o =
      catchBlock env
        ⟨confOrd env o,
         [stampOrd o OrderStatus.routing (env.now 0),
          stampOrd o OrderStatus.building (env.now 1),
          stampOrd o OrderStatus.submitted (env.now 2),
          confOrd env o],
         [plainEv OrderStatus.routing o.id, plainEv OrderStatus.building o.id,
          plainEv OrderStatus.submitted o.id, confEv env o],
         [plainEv OrderStatus.routing o.id, plainEv OrderStatus.building o.id,
          plainEv OrderStatus.submitted o.id],
         4, 4⟩ g := by
  unfold workerHandler
  dsimp only
  rw [updateStatus_conn_ok env _ _ _ _ _ hc h0]
  dsimp only
  rw [ha]
  dsimp only
  rw [hb]
  dsimp only
  rw [updateStatus_conn_ok env _ _ _ _ _ hc h1]
  dsimp only
  rw [updateStatus_conn_ok env _ _ _ _ _ hc h2]
  dsimp only
  rw [he]
  dsimp only
  rw [updateStatus_conn_fault env _ _ _ _ _ g hc h3]
  dsimp only
  simp [stampOrd, plainEv, confOrd, confEv, txOf, bestDexOf, executeSwap,
        getRaydiumQuote, getMeteoraQuote]

theorem workerHandler_clean_nc (env : WorkerEnv) (o : Order)
    (hc : env.connected = false)
    (ha : env.quoteAFault = none) (hb : env.quoteBFault = none)
    (he : env.execFault = none) :
    workerHandler env o =
      ⟨confOrd env o,
       [stampOrd o OrderStatus.routing (env.now 0),
        stampOrd o OrderStatus.building (env.now 1),
        stampOrd o OrderStatus.submitted (env.now 2),
        confOrd env o],
       [plainEv OrderStatus.routing o.id,
        plainEv OrderStatus.building o.id,
        plainEv OrderStatus.submitted o.id,
        confEv env o],
       [],
       Except.ok ()⟩ := by
  unfold workerHandler
  dsimp only
  rw [updateStatus_noconn env _ _ _ _ _ hc]
  dsimp only
  rw [ha]
  dsimp only
  rw [hb]
  dsimp only
  rw [updateStatus_noconn env _ _ _ _ _ hc]
  dsimp only
  rw [updateStatus_noconn env _ _ _ _ _ hc]
  dsimp only
  rw [he]
  dsimp only
  rw [updateStatus_noconn env _ _ _ _ _ hc]
  dsimp only
  simp [executeSwap, getRaydiumQuote, getMeteoraQuote, confOrd, stampOrd,
        plainEv, confEv, txOf, bestDexOf]

theorem workerHandler_qa_nc (env : WorkerEnv) (o : Order) (m : String)
    (hc : env.connected = false) (ha : env.quoteAFault = some m) :
    workerHandler env o =
      catchBlock env
        ⟨stampOrd o OrderStatus.routing (env.now 0),
         [stampOrd o OrderStatus.routing (env.now 0)],
         [plainEv OrderStatus.routing o.id], [], 0, 1⟩ m := by
  unfold workerHandler
  dsimp only
  rw [updateStatus_noconn env _ _ _ _ _ hc]
  dsimp only
  rw [ha]
  dsimp only
  simp [stampOrd, plainEv]

theorem workerHandler_qb_nc (env : WorkerEnv) (o : Order) (m : String)
    (hc : env.connected = false) (ha : env.quoteAFault = none)
    (hb : env.quoteBFault = some m) :
    workerHandler env o =
      catchBlock env
        ⟨stampOrd o OrderStatus.routing (env.now 0),
         [stampOrd o OrderStatus.routing (env.now 0)],
         [plainEv OrderStatus.routing o.id], [], 0, 1⟩ m := by
  unfold workerHandler
  dsimp only
  rw [updateStatus_noconn env _ _ _ _ _ hc]
  dsimp only
  rw [ha]
  dsimp only
  rw [hb]
  dsimp only
  simp [stampOrd, plainEv]

theorem workerHandler_exec_nc (env : WorkerEnv) (o : Order) (m : String)
    (hc : env.connected = false) (ha : env.quoteAFault = none)
    (hb : env.quoteBFault = none) (he : env.execFault = some m) :
    workerHandler env o =
      catchBlock env
        ⟨stampOrd o OrderStatus.submitted (env.now 2),
         [stampOrd o OrderStatus.routing (env.now 0),
          stampOrd o OrderStatus.building (env.now 1),
          stampOrd o OrderStatus.submitted (env.now 2)],
         [plainEv OrderStatus.routing o.id, plainEv OrderStatus.building o.id,
          plainEv OrderStatus.submitted o.id],
         [], 0, 3⟩ m := by
  unfold workerHandler
  dsimp only
  rw [updateStatus_noconn env _ _ _ _ _ hc]
  dsimp only
  rw [ha]
  dsimp only
  rw [hb]
  dsimp only
  rw [updateStatus_noconn env _ _ _ _ _ hc]
  dsimp only
  rw [updateStatus_noconn env _ _ _ _ _ hc]
  dsimp only
  rw [he]
  dsimp only
  simp [stampOrd, plainEv]

/-- C1: every worker-handler invocation that completes without a fault sets
the order status in exactly the sequence routing, building, submitted,
confirmed; each transition stamps updatedAt with the current time and
writes the order back to the store, and hands the notifier an event
carrying the status and the order id; the confirmed event additionally
carries the txHash and executedPrice returned by venue execution; and
when a transport is bound every one of these events is delivered. -/
theorem worker_success_status_sequence (env : WorkerEnv) (o : Order)
    (h : (workerHandler env o).outcome = Except.ok ()) :
    (workerHandler env o).writes =
      [stampOrd o OrderStatus.routing (env.now 0),
       stampOrd o OrderStatus.building (env.now 1),
       stampOrd o OrderStatus.submitted (env.now 2),
       confOrd env o] ∧
    (workerHandler env o).writes.map Order.status =
      [OrderStatus.routing, OrderStatus.building, OrderStatus.submitted,
       OrderStatus.confirmed] ∧
    (workerHandler env o).writes.map Order.updatedAt =
      [env.now 0, env.now 1, env.now 2, env.now 3] ∧
    (workerHandler env o).notes =
      [plainEv OrderStatus.routing o.id, plainEv OrderStatus.building o.id,
       plainEv OrderStatus.submitted o.id, confEv env o] ∧
    (∀ ev ∈ (workerHandler env o).notes, ev.orderId = o.id) ∧
    confEv env o = ⟨OrderStatus.confirmed, o.id,
      some (executeSwap env.uuid env.rE (bestDexOf env o) o).1,
      some (executeSwap env.uuid env.rE (bestDexOf env o) o).2, none⟩ ∧
    (workerHandler env o).order.status = OrderStatus.confirmed ∧
    (workerHandler env o).order.txHash =
      some (executeSwap env.uuid env.rE (bestDexOf env o) o).1 ∧
    (env.connected = true →
      (workerHandler env o).delivered = (workerHandler env o).notes) := by
  cases hc : env.connected with
  | false =>
    cases ha : env.quoteAFault with
    | some m =>
      rw [workerHandler_qa_nc env o m hc ha] at h
      exact absurd h (catchBlock_ne_ok _ _ _)
    | none =>
      cases hb : env.quoteBFault with
      | some m =>
        rw [workerHandler_qb_nc env o m hc ha hb] at h
        exact absurd h (catchBlock_ne_ok _ _ _)
      | none =>
        cases he : env.execFault with
        | some m =>
          rw [workerHandler_exec_nc env o m hc ha hb he] at h
          exact absurd h (catchBlock_ne_ok _ _ _)
        | none =>
          rw [workerHandler_clean_nc env o hc ha hb he]
          refine ⟨rfl, by simp [stampOrd, confOrd], by simp [stampOrd, confOrd],
                  rfl, by simp [plainEv, confEv], rfl, rfl, rfl, fun hcc => ?_⟩
          exact Bool.noConfusion hcc
  | true =>
    cases h0 : env.sendFault 0 with
    | some g =>
      rw [workerHandler_sf0 env o g hc h0] at h
      exact absurd h (catchBlock_ne_ok _ _ _)
    | none =>
      cases ha : env.quoteAFault with
      | some m =>
        rw [workerHandler_qa env o m hc h0 ha] at h
        exact absurd h (catchBlock_ne_ok _ _ _)
      | none =>
        cases hb : env.quoteBFault with
        | some m =>
          rw [workerHandler_qb env o m hc h0 ha hb] at h
          exact absurd h (catchBlock_ne_ok _ _ _)
        | none =>
          cases h1 : env.sendFault 1 with
          | some g =>
            rw [workerHandler_sf1 env o g hc h0 ha hb h1] at h
            exact absurd h (catchBlock_ne_ok _ _ _)
          | none =>
            cases h2 : env.sendFault 2 with
            | some g =>
              rw [workerHandler_sf2 env o g hc h0 ha hb h1 h2] at h
              exact absurd h (catchBlock_ne_ok _ _ _)
            | none =>
              cases he : env.execFault with
              | some m =>
                rw [workerHandler_exec env o m hc h0 ha hb h1 h2 he] at h
                exact absurd h (catchBlock_ne_ok _ _ _)
              | none =>
                cases h3 : env.sendFault 3 with
                | some g =>
                  rw [workerHandler_sf3 env o g hc h0 ha hb h1 h2 he h3] at h
                  exact absurd h (catchBlock_ne_ok _ _ _)
                | none =>
                  rw [workerHandler_clean env o hc h0 h1 h2 h3 ha hb he]
                  exact ⟨rfl, by simp [stampOrd, confOrd],
                         by simp [stampOrd, confOrd], rfl,
                         by simp [plainEv, confEv], rfl, rfl, rfl,
                         fun hcc => rfl⟩

/-- Concrete clean environment for the worker success witness. -/
def c1Env : WorkerEnv :=
  ⟨1/2, 1/2, 1/2, "u1", fun n => n, true, fun _ => none, none, none, none⟩

/-- Concrete pending order for the worker success witness. -/
def c1Order : Order :=
  ⟨"o1", "SOL", "USDC", 3/2, OrderStatus.pending, none, none, 0, 0⟩

/-- Witness for worker_success_status_sequence on a concrete clean run. -/
theorem worker_success_status_sequence_witness :
    (workerHandler c1Env c1Order).outcome = Except.ok () ∧
    ((workerHandler c1Env c1Order).writes =
      [stampOrd c1Order OrderStatus.routing (c1Env.now 0),
       stampOrd c1Order OrderStatus.building (c1Env.now 1),
       stampOrd c1Order OrderStatus.submitted (c1Env.now 2),
       confOrd c1Env c1Order] ∧
    (workerHandler c1Env c1Order).writes.map Order.status =
      [OrderStatus.routing, OrderStatus.building, OrderStatus.submitted,
       OrderStatus.confirmed] ∧
    (workerHandler c1Env c1Order).writes.map Order.updatedAt =
      [c1Env.now 0, c1Env.now 1, c1Env.now 2, c1Env.now 3] ∧
    (workerHandler c1Env c1Order).notes =
      [plainEv OrderStatus.routing c1Order.id,
       plainEv OrderStatus.building c1Order.id,
       plainEv OrderStatus.submitted c1Order.id, confEv c1Env c1Order] ∧
    (∀ ev ∈ (workerHandler c1Env c1Order).notes, ev.orderId = c1Order.id) ∧
    confEv c1Env c1Order = ⟨OrderStatus.confirmed, c1Order.id,
      some (executeSwap c1Env.uuid c1Env.rE (bestDexOf c1Env c1Order) c1Order).1,
      some (executeSwap c1Env.uuid c1Env.rE (bestDexOf c1Env c1Order) c1Order).2,
      none⟩ ∧
    (workerHandler c1Env c1Order).order.status = OrderStatus.confirmed ∧
    (workerHandler c1Env c1Order).order.txHash =
      some (executeSwap c1Env.uuid c1Env.rE (bestDexOf c1Env c1Order) c1Order).1 ∧
    (c1Env.connected = true →
      (workerHandler c1Env c1Order).delivered =
        (workerHandler c1Env c1Order).notes)) :=
  ⟨rfl, worker_success_status_sequence c1Env c1Order rfl⟩

/-- Helper: what any catch-block entry guarantees, given the run ends in
the catch block with original fault m and raises g. -/
theorem catch_conclusion (env : WorkerEnv) (S : WSt) (m g oid : String)
    (hid : S.order.id = oid)
    (h : (catchBlock env S m).outcome = Except.error g) :
    ∃ m2 : String,
      (catchBlock env S m).order.status = OrderStatus.failed ∧
      (catchBlock env S m).order.error = some m2 ∧
      (∃ k, (catchBlock env S m).order.updatedAt = env.now k) ∧
      (catchBlock env S m).writes.getLast? = some (catchBlock env S m).order ∧
      (catchBlock env S m).notes.getLast? =
        some ⟨OrderStatus.failed, oid, none, none, some m2⟩ ∧
      (g = m2 ∨ ∃ k, env.sendFault k = some g) := by
  refine ⟨m, ?_, ?_, ⟨S.clockIdx, ?_⟩, ?_, ?_, ?_⟩
  · rw [catchBlock_order]
  · rw [catchBlock_order]
  · rw [catchBlock_order]
  · rw [catchBlock_writes]
    exact List.getLast?_concat _
  · rw [catchBlock_notes, hid]
    exact List.getLast?_concat _
  · rcases catchBlock_outcome env S m with hout | ⟨hcb, g2, hg2, hout⟩
    · rw [hout] at h
      exact Or.inl (Except.error.inj h).symm
    · rw [hout] at h
      exact Or.inr ⟨S.sendIdx, by rw [← Except.error.inj h]; exact hg2⟩

/-- C3 amended: if any step of the worker handler raises a fault, the
handler sets the order status to failed and its error field to the
message of the original fault, stamps updatedAt, writes the order to the
store as the last store write, offers a failed notification carrying that
message and the order id, and re-raises the same fault to the queue
unless the delivery of the failure notification itself faults, in which
case that delivery fault is what reaches the queue. -/
theorem fault_path_amended (env : WorkerEnv) (o : Order) (g : String)
    (h : (workerHandler env o).outcome = Except.error g) :
    ∃ m : String,
      (workerHandler env o).order.status = OrderStatus.failed ∧
      (workerHandler env o).order.error = some m ∧
      (∃ k, (workerHandler env o).order.updatedAt = env.now k) ∧
      (workerHandler env o).writes.getLast? = some (workerHandler env o).order ∧
      (workerHandler env o).notes.getLast? =
        some ⟨OrderStatus.failed, o.id, none, none, some m⟩ ∧
      (g = m ∨ ∃ k, env.sendFault k = some g) := by
  cases hc : env.connected with
  | false =>
    cases ha : env.quoteAFault with
    | some m =>
      rw [workerHandler_qa_nc env o m hc ha] at h ⊢
      exact catch_conclusion env _ m g o.id (by simp [stampOrd]) h
    | none =>
      cases hb : env.quoteBFault with
      | some m =>
        rw [workerHandler_qb_nc env o m hc ha hb] at h ⊢
        exact catch_conclusion env _ m g o.id (by simp [stampOrd]) h
      | none =>
        cases he : env.execFault with
        | some m =>
          rw [workerHandler_exec_nc env o m hc ha hb he] at h ⊢
          exact catch_conclusion env _ m g o.id (by simp [stampOrd]) h
        | none =>
          rw [workerHandler_clean_nc env o hc ha hb he] at h
          exact Except.noConfusion h
  | true =>
    cases h0 : env.sendFault 0 with
    | some g0 =>
      rw [workerHandler_sf0 env o g0 hc h0] at h ⊢
      exact catch_conclusion env _ g0 g o.id (by simp [stampOrd]) h
    | none =>
      cases ha : env.quoteAFault with
      | some m =>
        rw [workerHandler_qa env o m hc h0 ha] at h ⊢
        exact catch_conclusion env _ m g o.id (by simp [stampOrd]) h
      | none =>
        cases hb : env.quoteBFault with
        | some m =>
          rw [workerHandler_qb env o m hc h0 ha hb] at h ⊢
          exact catch_conclusion env _ m g o.id (by simp [stampOrd]) h
        | none =>
          cases h1 : env.sendFault 1 with
          | some g1 =>
            rw [workerHandler_sf1 env o g1 hc h0 ha hb h1] at h ⊢
            exact catch_conclusion env _ g1 g o.id (by simp [stampOrd]) h
          | none =>
            cases h2 : env.sendFault 2 with
            | some g2 =>
              rw [workerHandler_sf2 env o g2 hc h0 ha hb h1 h2] at h ⊢
              exact catch_conclusion env _ g2 g o.id (by simp [stampOrd]) h
            | none =>
              cases he : env.execFault with
              | some m =>
                rw [workerHandler_exec env o m hc h0 ha hb h1 h2 he] at h ⊢
                exact catch_conclusion env _ m g o.id (by simp [stampOrd]) h
              | none =>
                cases h3 : env.sendFault 3 with
                | some g3 =>
                  rw [workerHandler_sf3 env o g3 hc h0 ha hb h1 h2 he h3] at h ⊢
                  exact catch_conclusion env _ g3 g o.id (by simp [confOrd]) h
                | none =>
                  rw [workerHandler_clean env o hc h0 h1 h2 h3 ha hb he] at h
                  exact Except.noConfusion h

/-- Environment whose submitted-status push throws drop1 and whose
failure-notification push throws drop2. -/
def c3Env : WorkerEnv :=
  ⟨1/2, 1/2, 1/2, "u3", fun n => n, true,
   fun n => if n == 2 then some "drop1" else if n == 3 then some "drop2" else none,
   none, none, none⟩

/-- Order processed in the fault re-raise counterexample. -/
def c3Order : Order :=
  ⟨"o3", "SOL", "USDC", 3/2, OrderStatus.pending, none, none, 0, 0⟩

/-- Counterexample to C3 as stated: the step fault here is drop1, thrown
by the submitted-status push, and the order is duly marked failed with
error drop1, but the handler re-raises drop2 (the failure-notification
delivery fault), not the same fault drop1. -/
theorem fault_rethrow_counterexample :
    c3Env.sendFault 2 = some "drop1" ∧
    (workerHandler c3Env c3Order).order.status = OrderStatus.failed ∧
    (workerHandler c3Env c3Order).order.error = some "drop1" ∧
    (workerHandler c3Env c3Order).outcome = Except.error "drop2" ∧
    (workerHandler c3Env c3Order).outcome ≠ Except.error "drop1" := by
  refine ⟨rfl, rfl, rfl, rfl, fun hcon => ?_⟩
  have h2 : Except.error (ε := String) (α := Unit) "drop2" = Except.error "drop1" := hcon
  exact absurd (Except.error.inj h2) (by decide)

/-- Environment whose executeSwap await rejects with boom and whose
notification delivery works. -/
def c3wEnv : WorkerEnv :=
  ⟨1/2, 1/2, 1/2, "u3w", fun n => n, true, fun _ => none, none, none,
   some "boom"⟩

/-- Order processed in the fault path witness. -/
def c3wOrder : Order :=
  ⟨"o3w", "ETH", "USDT", 2, OrderStatus.pending, none, none, 0, 0⟩

/-- Witness for fault_path_amended on a concrete rejected execution. -/
theorem fault_path_amended_witness :
    (workerHandler c3wEnv c3wOrder).outcome = Except.error "boom" ∧
    (∃ m : String,
      (workerHandler c3wEnv c3wOrder).order.status = OrderStatus.failed ∧
      (workerHandler c3wEnv c3wOrder).order.error = some m ∧
      (∃ k, (workerHandler c3wEnv c3wOrder).order.updatedAt = c3wEnv.now k) ∧
      (workerHandler c3wEnv c3wOrder).writes.getLast? =
        some (workerHandler c3wEnv c3wOrder).order ∧
      (workerHandler c3wEnv c3wOrder).notes.getLast? =
        some ⟨OrderStatus.failed, c3wOrder.id, none, none, some m⟩ ∧
      ("boom" = m ∨ ∃ k, c3wEnv.sendFault k = some "boom")) :=
  ⟨rfl, fault_path_amended c3wEnv c3wOrder "boom" rfl⟩

/-- Helper: the catch block with no bound connection never consults the
send behaviour and re-raises the original fault. -/
theorem catchBlock_nc (env : WorkerEnv) (s : WSt) (m : String)
    (hc : env.connected = false) :
    catchBlock env s m =
      ⟨{ s.order with
         status := OrderStatus.failed
         error := some m
         updatedAt := env.now s.clockIdx },
       s.writes ++ [{ s.order with
         status := OrderStatus.failed
         error := some m
         updatedAt := env.now s.clockIdx }],
       s.notes ++ [⟨OrderStatus.failed, s.order.id, none, none, some m⟩],
       s.delivered, Except.error m⟩ := by
  unfold catchBlock
  simp [hc]

/-- C4 amended: when no transport is bound for the order id the push is
silently skipped: nothing is delivered and the whole run is unchanged by
any send behaviour.  But a delivery failure of a bound transport is NOT
swallowed: a push fault on the routing transition propagates into the
catch handler, sets the order to failed with the delivery fault as its
error, and makes the handler raise to the queue, so the retry policy is
triggered and the outcome is changed. -/
theorem notification_transport_amended :
    (∀ (env : WorkerEnv) (o : Order) (sf : Nat → Option String),
       env.connected = false →
         workerHandler { env with sendFault := sf } o = workerHandler env o ∧
         (workerHandler env o).delivered = []) ∧
    (∀ (env : WorkerEnv) (o : Order) (g : String),
       env.connected = true → env.sendFault 0 = some g →
         (workerHandler env o).order.status = OrderStatus.failed ∧
         (workerHandler env o).order.error = some g ∧
         ∃ g2, (workerHandler env o).outcome = Except.error g2) := by
  constructor
  · intro env o sf hc
    obtain ⟨rA, rB, rE, uuid, nowF, conn, sfOld, qa, qb, qe⟩ := env
    cases conn with
    | true => exact Bool.noConfusion hc
    | false =>
      cases qa with
      | some m =>
        rw [workerHandler_qa_nc ⟨rA, rB, rE, uuid, nowF, false, sfOld, some m, qb, qe⟩ o m rfl rfl,
            workerHandler_qa_nc ⟨rA, rB, rE, uuid, nowF, false, sf, some m, qb, qe⟩ o m rfl rfl,
            catchBlock_nc _ _ _ rfl, catchBlock_nc _ _ _ rfl]
        exact ⟨rfl, rfl⟩
      | none =>
        cases qb with
        | some m =>
          rw [workerHandler_qb_nc ⟨rA, rB, rE, uuid, nowF, false, sfOld, none, some m, qe⟩ o m rfl rfl rfl,
              workerHandler_qb_nc ⟨rA, rB, rE, uuid, nowF, false, sf, none, some m, qe⟩ o m rfl rfl rfl,
              catchBlock_nc _ _ _ rfl, catchBlock_nc _ _ _ rfl]
          exact ⟨rfl, rfl⟩
        | none =>
          cases qe with
          | some m =>
            rw [workerHandler_exec_nc ⟨rA, rB, rE, uuid, nowF, false, sfOld, none, none, some m⟩ o m rfl rfl rfl rfl,
                workerHandler_exec_nc ⟨rA, rB, rE, uuid, nowF, false, sf, none, none, some m⟩ o m rfl rfl rfl rfl,
                catchBlock_nc _ _ _ rfl, catchBlock_nc _ _ _ rfl]
            exact ⟨rfl, rfl⟩
          | none =>
            rw [workerHandler_clean_nc ⟨rA, rB, rE, uuid, nowF, false, sfOld, none, none, none⟩ o rfl rfl rfl rfl,
                workerHandler_clean_nc ⟨rA, rB, rE, uuid, nowF, false, sf, none, none, none⟩ o rfl rfl rfl rfl]
            exact ⟨rfl, rfl⟩
  · intro env o g hc hg
    rw [workerHandler_sf0 env o g hc hg]
    refine ⟨by rw [catchBlock_order], by rw [catchBlock_order], ?_⟩
    rcases catchBlock_outcome env _ g with hout | ⟨_, g2, _, hout⟩
    · exact ⟨g, hout⟩
    · exact ⟨g2, hout⟩

/-- Environment whose routing-status push throws drop; the router itself
never faults. -/
def c4Env : WorkerEnv :=
  ⟨1/2, 1/2, 1/2, "u4", fun n => n, true,
   fun n => if n == 0 then some "drop" else none, none, none, none⟩

/-- Order processed in the transport-fault counterexample. -/
def c4Order : Order :=
  ⟨"o4", "SOL", "USDC", 1, OrderStatus.pending, none, none, 0, 0⟩

/-- Counterexample to C4 as stated: with every router step healthy, a
single delivery failure of the bound transport aborts the handler, turns
the final state into failed instead of confirmed, and raises to the
queue, so the retry policy fires; the identical run whose delivery works
confirms the order. -/
theorem notification_aborts_counterexample :
    (workerHandler c4Env c4Order).outcome = Except.error "drop" ∧
    (workerHandler c4Env c4Order).order.status = OrderStatus.failed ∧
    (workerHandler { c4Env with sendFault := fun _ => none } c4Order).outcome =
      Except.ok () ∧
    (workerHandler { c4Env with sendFault := fun _ => none } c4Order).order.status =
      OrderStatus.confirmed :=
  ⟨rfl, rfl, rfl, rfl⟩

/-- Disconnected environment for the notification no-op witness. -/
def c4wEnv : WorkerEnv :=
  ⟨1/2, 1/2, 1/2, "u4w", fun n => n, false, fun _ => none, none, none, none⟩

/-- Order processed in the notification no-op witness. -/
def c4wOrder : Order :=
  ⟨"o4w", "USDT", "ETH", 5, OrderStatus.pending, none, none, 0, 0⟩

/-- Witness for notification_transport_amended: a run with no bound
transport delivers nothing and is unchanged under an always-throwing
send, and a bound run whose first push throws boom4 ends failed. -/
theorem notification_transport_amended_witness :
    (c4wEnv.connected = false ∧
     workerHandler { c4wEnv with sendFault := fun _ => some "x" } c4wOrder =
       workerHandler c4wEnv c4wOrder ∧
     (workerHandler c4wEnv c4wOrder).delivered = []) ∧
    (c4Env.connected = true ∧
     { c4Env with sendFault := fun n => if n == 0 then some "boom4" else none
       }.sendFault 0 = some "boom4" ∧
     (workerHandler { c4Env with
        sendFault := fun n => if n == 0 then some "boom4" else none }
        c4Order).order.status = OrderStatus.failed ∧
     (workerHandler { c4Env with
        sendFault := fun n => if n == 0 then some "boom4" else none }
        c4Order).order.error = some "boom4" ∧
     ∃ g2, (workerHandler { c4Env with
        sendFault := fun n => if n == 0 then some "boom4" else none }
        c4Order).outcome = Except.error g2) :=
  ⟨⟨rfl, (notification_transport_amended.1 c4wEnv c4wOrder (fun _ => some "x") rfl).1,
    (notification_transport_amended.1 c4wEnv c4wOrder (fun _ => some "x") rfl).2⟩,
   ⟨rfl, rfl,
    (notification_transport_amended.2 { c4Env with
       sendFault := fun n => if n == 0 then some "boom4" else none }
       c4Order "boom4" rfl rfl).1,
    (notification_transport_amended.2 { c4Env with
       sendFault := fun n => if n == 0 then some "boom4" else none }
       c4Order "boom4" rfl rfl).2.1,
    (notification_transport_amended.2 { c4Env with
       sendFault := fun n => if n == 0 then some "boom4" else none }
       c4Order "boom4" rfl rfl).2.2⟩⟩

/-- Environment whose confirmed-status push throws tfault after txHash is
already set on the order. -/
def c5Env : WorkerEnv :=
  ⟨1/2, 1/2, 1/2, "u5", fun n => n, true,
   fun n => if n == 3 then some "tfault" else none, none, none, none⟩

/-- Order processed in the store-invariant counterexample. -/
def c5Order : Order :=
  ⟨"o5", "SOL", "USDC", 1, OrderStatus.pending, none, none, 0, 0⟩

/-- Counterexample to C5 as stated: when the confirmed-status push throws,
the catch block writes the order to the store with status failed while
txHash is already set, so a stored record carries a txHash without being
confirmed. -/
theorem txhash_only_confirmed_counterexample :
    (workerHandler c5Env c5Order).writes.getLast? =
      some (workerHandler c5Env c5Order).order ∧
    (workerHandler c5Env c5Order).order.txHash = some "raydium_u5" ∧
    (workerHandler c5Env c5Order).order.status = OrderStatus.failed ∧
    (workerHandler c5Env c5Order).order.status ≠ OrderStatus.confirmed := by
  have h := workerHandler_sf3 c5Env c5Order "tfault" rfl rfl rfl rfl rfl rfl rfl rfl
  rw [h, catchBlock_writes, catchBlock_order]
  refine ⟨List.getLast?_concat _, ?_, rfl, by decide⟩
  simp [confOrd, txOf, bestDexOf, getRaydiumQuote, getMeteoraQuote, chooseBestDex]
  rw [show c5Env.rA = 1/2 from rfl, show c5Env.rB = 1/2 from rfl, if_pos le_rfl]
  rfl

/-- C5 amended: every order record written to the store has its error
field set only with status failed, and its txHash field set only with
status confirmed or — when a fault strikes after venue execution set the
txHash, concretely a delivery fault of the confirmed push — status
failed; the record created by the submission handler has neither field
set and status pending. -/
theorem store_write_invariant_amended (env : WorkerEnv) (o : Order)
    (htx : o.txHash = none) (herr : o.error = none) :
    (∀ w ∈ (workerHandler env o).writes,
       (w.error ≠ none → w.status = OrderStatus.failed) ∧
       (w.txHash ≠ none →
          w.status = OrderStatus.confirmed ∨ w.status = OrderStatus.failed)) ∧
    (∀ uuid t req,
       (createOrder uuid t req).txHash = none ∧
       (createOrder uuid t req).error = none ∧
       (createOrder uuid t req).status = OrderStatus.pending) := by
  refine ⟨?_, fun uuid t req => ⟨rfl, rfl, rfl⟩⟩
  cases hc : env.connected with
  | false =>
    cases ha : env.quoteAFault with
    | some m =>
      rw [workerHandler_qa_nc env o m hc ha]
      simp [catchBlock_writes, catchBlock_order, stampOrd, htx, herr]
    | none =>
      cases hb : env.quoteBFault with
      | some m =>
        rw [workerHandler_qb_nc env o m hc ha hb]
        simp [catchBlock_writes, catchBlock_order, stampOrd, htx, herr]
      | none =>
        cases he : env.execFault with
        | some m =>
          rw [workerHandler_exec_nc env o m hc ha hb he]
          simp [catchBlock_writes, catchBlock_order, stampOrd, htx, herr]
        | none =>
          rw [workerHandler_clean_nc env o hc ha hb he]
          simp [stampOrd, confOrd, htx, herr]
  | true =>
    cases h0 : env.sendFault 0 with
    | some g =>
      rw [workerHandler_sf0 env o g hc h0]
      simp [catchBlock_writes, catchBlock_order, stampOrd, htx, herr]
    | none =>
      cases ha : env.quoteAFault with
      | some m =>
        rw [workerHandler_qa env o m hc h0 ha]
        simp [catchBlock_writes, catchBlock_order, stampOrd, htx, herr]
      | none =>
        cases hb : env.quoteBFault with
        | some m =>
          rw [workerHandler_qb env o m hc h0 ha hb]
          simp [catchBlock_writes, catchBlock_order, stampOrd, htx, herr]
        | none =>
          cases h1 : env.sendFault 1 with
          | some g =>
            rw [workerHandler_sf1 env o g hc h0 ha hb h1]
            simp [catchBlock_writes, catchBlock_order, stampOrd, htx, herr]
          | none =>
            cases h2 : env.sendFault 2 with
            | some g =>
              rw [workerHandler_sf2 env o g hc h0 ha hb h1 h2]
              simp [catchBlock_writes, catchBlock_order, stampOrd, htx, herr]
            | none =>
              cases he : env.execFault with
              | some m =>
                rw [workerHandler_exec env o m hc h0 ha hb h1 h2 he]
                simp [catchBlock_writes, catchBlock_order, stampOrd, htx, herr]
              | none =>
                cases h3 : env.sendFault 3 with
                | some g =>
                  rw [workerHandler_sf3 env o g hc h0 ha hb h1 h2 he h3]
                  simp [catchBlock_writes, catchBlock_order, stampOrd, confOrd,
                        htx, herr]
                | none =>
                  rw [workerHandler_clean env o hc h0 h1 h2 h3 ha hb he]
                  simp [stampOrd, confOrd, htx, herr]

/-- Clean connected environment for the store-invariant witness. -/
def c5wEnv : WorkerEnv :=
  ⟨1/3, 2/3, 1/2, "u5w", fun n => n + 10, true, fun _ => none, none, none, none⟩

/-- Fresh pending order for the store-invariant witness. -/
def c5wOrder : Order :=
  ⟨"o5w", "ETH", "SOL", 7, OrderStatus.pending, none, none, 0, 0⟩

/-- Witness for store_write_invariant_amended on a concrete clean run. -/
theorem store_write_invariant_amended_witness :
    (c5wOrder.txHash = none ∧ c5wOrder.error = none) ∧
    ((∀ w ∈ (workerHandler c5wEnv c5wOrder).writes,
        (w.error ≠ none → w.status = OrderStatus.failed) ∧
        (w.txHash ≠ none →
           w.status = OrderStatus.confirmed ∨ w.status = OrderStatus.failed)) ∧
     (∀ uuid t req,
        (createOrder uuid t req).txHash = none ∧
        (createOrder uuid t req).error = none ∧
        (createOrder uuid t req).status = OrderStatus.pending)) :=
  ⟨⟨rfl, rfl⟩, store_write_invariant_amended c5wEnv c5wOrder rfl rfl⟩
